import Mathlib

/-!
Verification of the RialoFlow simulation engine (src/simulation.js).

The engine is a small deterministic state machine over a four-asset
portfolio.  JavaScript numbers are modelled as exact rationals (ℚ); the
arithmetic the engine performs on the values the claims mention is exact
in both models.  Log lines are modelled as an inductive type whose
constructors carry the numeric payloads that the source interpolates into
the message strings; DOM rendering is out of scope per the specification
and is not modelled.  The browser runtime's set of armed interval timers
is made explicit (`liveTimers`, `nextTimer`) so that timer lifecycle
properties can be stated; the JS `state.timerId` field is kept as-is.
-/

/-- The four-field portfolio ledger (`state.portfolio` in the source). -/
structure Portfolio where
  usdc : ℚ
  tBills : ℚ
  bonds : ℚ
  cash : ℚ
deriving DecidableEq, Repr

/-- The three user-tunable parameters (`state.params`). -/
structure Params where
  shockMagnitude : ℚ
  targetReserveRatio : ℚ
  yieldDistribution : ℚ
deriving DecidableEq, Repr

/-- The fixed initial allocation (`state.initialPortfolio`). -/
def initialPortfolio : Portfolio :=
  { usdc := 400000, tBills := 300000, bonds := 200000, cash := 100000 }

/-- Source `getTotalValue(p)`: sum of the four fields. -/
def getTotalValue (p : Portfolio) : ℚ :=
  p.usdc + p.tBills + p.bonds + p.cash

/-- Source `getReserveRatio(p)`: total value over the fixed liabilities
constant 1,000,000, as a percent. -/
def getReserveRatio (p : Portfolio) : ℚ :=
  getTotalValue p / 1000000 * 100

/-- Source `calculateRiskScore(p, params)`. -/
def calculateRiskScore (p : Portfolio) (params : Params) : ℚ :=
  let total := getTotalValue p
  if total = 0 then 0
  else
    let wBonds := p.bonds / total
    let wCash := p.cash / total
    let wBills := p.tBills / total
    let wUsdc := p.usdc / total
    let compositionRisk := wBonds * 80 + wBills * 10 + wUsdc * 5 + wCash * 0
    let shockFactor := 1 + params.shockMagnitude / 100
    let finalRisk := compositionRisk * shockFactor
    min 100 (max 0 finalRisk)

/-- SHOCK transition (`SIMULATION_STEPS[1].apply`): bonds shrink by the
shock factor, other fields unchanged. -/
def applyShock (params : Params) (p : Portfolio) : Portfolio :=
  let shockFactor : ℚ := 1 - params.shockMagnitude / 100
  { p with bonds := p.bonds * shockFactor }

/-- REBALANCE transition (`SIMULATION_STEPS[2].apply`): if the reserve
ratio is below target, sell 50% of remaining bonds into T-Bills. -/
def applyRebalance (params : Params) (p : Portfolio) : Portfolio :=
  let total := getTotalValue p
  let ratio := total / 1000000 * 100
  if ratio < params.targetReserveRatio then
    let sellAmount := p.bonds * (1 / 2)
    { p with bonds := p.bonds - sellAmount, tBills := p.tBills + sellAmount }
  else
    p

/-- DISTRIBUTION transition (`SIMULATION_STEPS[3].apply`): pay the yield
from cash first, spilling any remainder into T-Bills. -/
def applyDistribution (params : Params) (p : Portfolio) : Portfolio :=
  let total := getTotalValue p
  let distAmount := total * (params.yieldDistribution / 100)
  if distAmount ≤ p.cash then
    { p with cash := p.cash - distAmount }
  else
    { p with cash := 0, tBills := p.tBills - (distAmount - p.cash) }

/-- Log lines emitted through `logEvent`, one constructor per message
shape, carrying the numeric data the source formats into the string. -/
inductive LogMsg where
  | resetLine : LogMsg
  | marketShock (magnitude lost : ℚ) : LogMsg
  | rebalanceTriggered (sellAmount : ℚ) : LogMsg
  | rebalanceHealthy (ratio : ℚ) : LogMsg
  | distributionPaid (amount pct : ℚ) : LogMsg
  | presetLoaded (label : String) : LogMsg
deriving DecidableEq, Repr

/-- Portfolio produced by `SIMULATION_STEPS[i].apply` (steps 1–3). -/
def stepApply : Nat → Params → Portfolio → Portfolio
  | 1, params, p => applyShock params p
  | 2, params, p => applyRebalance params p
  | 3, params, p => applyDistribution params p
  | _, _, p => p

/-- Log lines emitted by `SIMULATION_STEPS[i].apply` (steps 1–3). -/
def stepLogs : Nat → Params → Portfolio → List LogMsg
  | 1, params, p =>
      [.marketShock params.shockMagnitude (p.bonds - (applyShock params p).bonds)]
  | 2, params, p =>
      if getTotalValue p / 1000000 * 100 < params.targetReserveRatio then
        [.rebalanceTriggered (p.bonds * (1 / 2))]
      else
        [.rebalanceHealthy (getTotalValue p / 1000000 * 100)]
  | 3, params, p =>
      [.distributionPaid (getTotalValue p * (params.yieldDistribution / 100))
        params.yieldDistribution]
  | _, _, _ => []

/-- Scenario parameters used in §8's scenarios A–C (the defaults). -/
def scenarioParams : Params :=
  { shockMagnitude := 20, targetReserveRatio := 110, yieldDistribution := 5 }

/-- Portfolio after SHOCK in scenario A. -/
def afterShock : Portfolio := applyShock scenarioParams initialPortfolio

/-- Portfolio after REBALANCE in scenario B. -/
def afterRebalance : Portfolio := applyRebalance scenarioParams afterShock

/-- Portfolio after DISTRIBUTION in scenario C. -/
def afterDistribution : Portfolio := applyDistribution scenarioParams afterRebalance

/-- History entries (`state.history`): `{ step, value }`. -/
structure HistEntry where
  step : Nat
  value : ℚ
deriving DecidableEq, Repr

/-- The engine's mutable state (the source's global `state` object), with
the browser runtime's armed-interval-timer set made explicit: `liveTimers`
is the list of armed interval timers (most recent first) and `nextTimer`
the next fresh timer id the runtime would return (ids start at 1, as
browser `setInterval` ids are positive).  `history` is a JS array indexed
by step; a slot never assigned reads as `none`. -/
structure EngineState where
  currentStep : Nat
  isPlaying : Bool
  hasEverPlayed : Bool
  timerId : Option Nat
  params : Params
  portfolio : Portfolio
  history : List (Option HistEntry)
  logs : List LogMsg
  liveTimers : List Nat
  nextTimer : Nat
deriving DecidableEq, Repr

/-- Source `logEvent(msg)`: append to the log. -/
def logEvent (m : LogMsg) (s : EngineState) : EngineState :=
  { s with logs := s.logs ++ [m] }

/-- JS array index assignment `h[i] = e`: overwrite in range, extend with
undefined (`none`) holes past the end. -/
def histWrite (h : List (Option HistEntry)) (i : Nat) (e : HistEntry) :
    List (Option HistEntry) :=
  if i < h.length then h.set i (some e)
  else h ++ List.replicate (i - h.length) none ++ [some e]

/-- Source `executeStep(stepIndex)`: apply the step's transition (index 0
restores the initial portfolio) and record the history entry; out-of-range
indices return without touching anything (`if (!stepDef) return`). -/
def executeStep (stepIndex : Nat) (s : EngineState) : EngineState :=
  if 4 ≤ stepIndex then s
  else
    let s1 :=
      if stepIndex = 0 then { s with portfolio := initialPortfolio }
      else
        { s with portfolio := stepApply stepIndex s.params s.portfolio,
                 logs := s.logs ++ stepLogs stepIndex s.params s.portfolio }
    { s1 with
        history := histWrite s1.history stepIndex
          ⟨stepIndex, getTotalValue s1.portfolio⟩ }

/-- Source `stopSimulation()`: clear `isPlaying`, cancel the tracked timer
when one is set. -/
def stopSimulation (s : EngineState) : EngineState :=
  let s1 := { s with isPlaying := false }
  match s1.timerId with
  | some id => { s1 with liveTimers := s1.liveTimers.erase id, timerId := none }
  | none => s1

/-- Source `resetSimulation()`: stop, restore step 0 and the initial
portfolio, reinitialise history, clear the log, then log the reset line. -/
def resetSimulation (s : EngineState) : EngineState :=
  let s1 := stopSimulation s
  let s2 := { s1 with
      currentStep := 0,
      portfolio := initialPortfolio,
      history := [some ⟨0, getTotalValue initialPortfolio⟩],
      logs := [] }
  logEvent .resetLine s2

/-- Source `nextStep()`: advance and execute when not at the terminal step
(stopping on arrival at the terminal step), otherwise just stop. -/
def nextStep (s : EngineState) : EngineState :=
  if s.currentStep < 3 then
    let s1 := executeStep (s.currentStep + 1) { s with currentStep := s.currentStep + 1 }
    if s1.currentStep = 3 then stopSimulation s1 else s1
  else stopSimulation s

/-- Source `startPlaySequence()`: set the playing flag and the one-way
`hasEverPlayed` latch, then arm a fresh interval timer, overwriting
`timerId` without cancelling any previously armed timer. -/
def startPlaySequence (s : EngineState) : EngineState :=
  let s1 := { s with isPlaying := true, hasEverPlayed := true }
  { s1 with
      timerId := some s1.nextTimer,
      liveTimers := s1.nextTimer :: s1.liveTimers,
      nextTimer := s1.nextTimer + 1 }

/-- Source `playSimulation()`: replaying from the terminal step resets
first (the source defers the subsequent `startPlaySequence` by 100ms; the
composition models the state once that deferred call has run), otherwise
starts the play sequence directly. -/
def playSimulation (s : EngineState) : EngineState :=
  if s.currentStep = 3 then startPlaySequence (resetSimulation s)
  else startPlaySequence s

/-- A preset: the three parameter values plus a display label. -/
structure Preset where
  shockMagnitude : ℚ
  targetReserveRatio : ℚ
  yieldDistribution : ℚ
  label : String
deriving DecidableEq, Repr

/-- Source `PRESETS` lookup: the three named presets. -/
def PRESETS : String → Option Preset
  | "conservative" =>
      some { shockMagnitude := 10, targetReserveRatio := 130,
             yieldDistribution := 2, label := "Conservative" }
  | "balanced" =>
      some { shockMagnitude := 20, targetReserveRatio := 110,
             yieldDistribution := 5, label := "Balanced" }
  | "aggressive" =>
      some { shockMagnitude := 35, targetReserveRatio := 105,
             yieldDistribution := 8, label := "Aggressive" }
  | _ => none

/-- Source `applyPreset(presetName)`: silently ignore unknown names;
otherwise overwrite the three parameters, reset, and log the preset. -/
def applyPreset (presetName : String) (s : EngineState) : EngineState :=
  match PRESETS presetName with
  | none => s
  | some preset =>
      let s1 := { s with params :=
        { shockMagnitude := preset.shockMagnitude,
          targetReserveRatio := preset.targetReserveRatio,
          yieldDistribution := preset.yieldDistribution } }
      logEvent (.presetLoaded preset.label) (resetSimulation s1)

/-- Slider input handler for the shock-magnitude slider. -/
def setShockMagnitude (v : ℚ) (s : EngineState) : EngineState :=
  { s with params := { s.params with shockMagnitude := v } }

/-- Slider input handler for the target-reserve-ratio slider. -/
def setTargetReserveRatio (v : ℚ) (s : EngineState) : EngineState :=
  { s with params := { s.params with targetReserveRatio := v } }

/-- Slider input handler for the yield-distribution slider. -/
def setYieldDistribution (v : ℚ) (s : EngineState) : EngineState :=
  { s with params := { s.params with yieldDistribution := v } }

/-- The state at program start: the literal `state` object, then `init()`
runs `resetSimulation()`. -/
def initState : EngineState :=
  resetSimulation
    { currentStep := 0, isPlaying := false, hasEverPlayed := false,
      timerId := none,
      params := { shockMagnitude := 20, targetReserveRatio := 110,
                  yieldDistribution := 5 },
      portfolio := { usdc := 0, tBills := 0, bonds := 0, cash := 0 },
      history := [], logs := [], liveTimers := [], nextTimer := 1 }

/-- Parameters for scenario E: the defaults with yieldDistribution set to
100. -/
def scenarioEParams : Params :=
  { scenarioParams with yieldDistribution := 100 }

/-- Every field of the portfolio is non-negative (the data model's
Portfolio invariant, spec §3). -/
def Nonneg (p : Portfolio) : Prop :=
  0 ≤ p.usdc ∧ 0 ≤ p.tBills ∧ 0 ≤ p.bonds ∧ 0 ≤ p.cash

/-- Risk score as the specification words it: fractional weights, the
weighted composition risk `80*bonds + 10*tBills + 5*usdc + 0*cash`, the
shock factor, and the clamp to [0, 100]; 0 when the total value is 0. -/
def riskScoreSpec (p : Portfolio) (params : Params) : ℚ :=
  if getTotalValue p = 0 then 0
  else
    min 100 (max 0
      ((80 * (p.bonds / getTotalValue p) + 10 * (p.tBills / getTotalValue p) +
        5 * (p.usdc / getTotalValue p) + 0 * (p.cash / getTotalValue p)) *
       (1 + params.shockMagnitude / 100)))

/-- C1: from the fixed initial portfolio with the default parameters
(shockMagnitude 20, targetReserveRatio 110, yieldDistribution 5), SHOCK
gives bonds 160000 and total 960000; REBALANCE gives bonds 80000, tBills
380000, total 960000; DISTRIBUTION gives cash 52000, tBills 380000, total
912000. -/
theorem c1_scenario_chain :
    afterShock.bonds = 160000 ∧ getTotalValue afterShock = 960000 ∧
    afterRebalance.bonds = 80000 ∧ afterRebalance.tBills = 380000 ∧
    getTotalValue afterRebalance = 960000 ∧
    afterDistribution.cash = 52000 ∧ afterDistribution.tBills = 380000 ∧
    getTotalValue afterDistribution = 912000 := by
  norm_num [afterShock, afterRebalance, afterDistribution, applyShock,
    applyRebalance, applyDistribution, getTotalValue, scenarioParams,
    initialPortfolio]

/-- C2: the risk score `calculateRiskScore` equals the specification's formula (0 on a
zero-value portfolio, otherwise the clamped shock-scaled composition
risk), and the result always lies in [0, 100]. -/
theorem c2_riskScore_matches_spec (p : Portfolio) (params : Params) :
    calculateRiskScore p params = riskScoreSpec p params ∧
    0 ≤ calculateRiskScore p params ∧ calculateRiskScore p params ≤ 100 := by
  refine ⟨?_, ?_, ?_⟩
  · simp only [calculateRiskScore, riskScoreSpec]
    split
    · rfl
    · congr 2
      ring
  · simp only [calculateRiskScore]
    split
    · exact le_refl 0
    · exact le_min (by norm_num) (le_max_left 0 _)
  · simp only [calculateRiskScore]
    split
    · norm_num
    · exact min_le_left _ _

/-- C3: DISTRIBUTION never leaves negative cash — the payout comes from
cash when cash suffices (tBills untouched), otherwise cash becomes exactly
0 and the shortfall comes out of tBills; on the initial portfolio with
yieldDistribution 100 this yields cash 0 and tBills -600000. -/
theorem c3_distribution_cash_nonneg (params : Params) (p : Portfolio) :
    0 ≤ (applyDistribution params p).cash ∧
    ((getTotalValue p * (params.yieldDistribution / 100) ≤ p.cash →
        (applyDistribution params p).cash =
          p.cash - getTotalValue p * (params.yieldDistribution / 100) ∧
        (applyDistribution params p).tBills = p.tBills) ∧
      (¬ getTotalValue p * (params.yieldDistribution / 100) ≤ p.cash →
        (applyDistribution params p).cash = 0 ∧
        (applyDistribution params p).tBills =
          p.tBills - (getTotalValue p * (params.yieldDistribution / 100) - p.cash))) ∧
    (applyDistribution scenarioEParams initialPortfolio).cash = 0 ∧
    (applyDistribution scenarioEParams initialPortfolio).tBills = -600000 := by
  refine ⟨?_, ⟨?_, ?_⟩, ?_, ?_⟩
  · simp only [applyDistribution]
    split
    · rename_i h
      exact sub_nonneg.mpr h
    · exact le_refl 0
  · intro h
    simp only [applyDistribution, if_pos h]
    exact ⟨trivial, trivial⟩
  · intro h
    simp only [applyDistribution, if_neg h]
    exact ⟨trivial, trivial⟩
  · norm_num [applyDistribution, getTotalValue, scenarioEParams, scenarioParams,
      initialPortfolio]
  · norm_num [applyDistribution, getTotalValue, scenarioEParams, scenarioParams,
      initialPortfolio]

/-- C10: none of the SHOCK, REBALANCE and DISTRIBUTION transitions ever
changes the USDC holding. -/
theorem c10_usdc_unchanged (params : Params) (p : Portfolio) :
    (applyShock params p).usdc = p.usdc ∧
    (applyRebalance params p).usdc = p.usdc ∧
    (applyDistribution params p).usdc = p.usdc := by
  refine ⟨rfl, ?_, ?_⟩ <;>
    · simp only [applyRebalance, applyDistribution]
      split <;> rfl

/-- C6: with shockMagnitude in [0,100] the INITIAL, SHOCK and REBALANCE
transitions preserve non-negativity of every field — SHOCK multiplies
bonds by a factor in [0,1] and REBALANCE moves half of the bonds into
T-Bills without changing the total value — so the total value after these
steps is non-negative. -/
theorem c6_nonneg_preserved (params : Params) (p : Portfolio)
    (hs0 : 0 ≤ params.shockMagnitude) (hs1 : params.shockMagnitude ≤ 100)
    (hp : Nonneg p) :
    Nonneg initialPortfolio ∧
    Nonneg (applyShock params p) ∧
    (0 ≤ 1 - params.shockMagnitude / 100 ∧ 1 - params.shockMagnitude / 100 ≤ 1) ∧
    (applyShock params p).bonds = p.bonds * (1 - params.shockMagnitude / 100) ∧
    (∀ q : Portfolio, Nonneg q → Nonneg (applyRebalance params q)) ∧
    (∀ q : Portfolio, getTotalValue (applyRebalance params q) = getTotalValue q) ∧
    0 ≤ getTotalValue (applyRebalance params (applyShock params p)) := by
  obtain ⟨hu, ht, hb, hc⟩ := hp
  have hq100 : (0:ℚ) < 100 := by norm_num
  have hdiv0 : 0 ≤ params.shockMagnitude / 100 := div_nonneg hs0 hq100.le
  have hdiv1 : params.shockMagnitude / 100 ≤ 1 := by
    rw [div_le_one hq100]
    exact hs1
  have hfac0 : (0:ℚ) ≤ 1 - params.shockMagnitude / 100 := by linarith
  have hshock : Nonneg (applyShock params p) :=
    ⟨hu, ht, mul_nonneg hb hfac0, hc⟩
  have hreb : ∀ q : Portfolio, Nonneg q → Nonneg (applyRebalance params q) := by
    intro q hq
    obtain ⟨hqu, hqt, hqb, hqc⟩ := hq
    simp only [applyRebalance]
    split
    · exact ⟨hqu, by nlinarith, by nlinarith, hqc⟩
    · exact ⟨hqu, hqt, hqb, hqc⟩
  have htot : ∀ q : Portfolio, getTotalValue (applyRebalance params q) = getTotalValue q := by
    intro q
    simp only [applyRebalance, getTotalValue]
    split
    · ring
    · rfl
  refine ⟨by norm_num [Nonneg, initialPortfolio], hshock, ⟨hfac0, by linarith⟩, rfl,
    hreb, htot, ?_⟩
  obtain ⟨h1, h2, h3, h4⟩ := hreb (applyShock params p) hshock
  unfold getTotalValue
  linarith

/-- C6 at a concrete input: the scenario parameters and the initial
portfolio satisfy the hypotheses, and the conclusion holds there. -/
theorem c6_nonneg_preserved_witness :
    Nonneg initialPortfolio ∧
    Nonneg (applyShock scenarioParams initialPortfolio) ∧
    (0 ≤ 1 - scenarioParams.shockMagnitude / 100 ∧
      1 - scenarioParams.shockMagnitude / 100 ≤ 1) ∧
    (applyShock scenarioParams initialPortfolio).bonds =
      initialPortfolio.bonds * (1 - scenarioParams.shockMagnitude / 100) ∧
    (∀ q : Portfolio, Nonneg q → Nonneg (applyRebalance scenarioParams q)) ∧
    (∀ q : Portfolio,
      getTotalValue (applyRebalance scenarioParams q) = getTotalValue q) ∧
    0 ≤ getTotalValue
      (applyRebalance scenarioParams (applyShock scenarioParams initialPortfolio)) :=
  c6_nonneg_preserved scenarioParams initialPortfolio (by norm_num [scenarioParams])
    (by norm_num [scenarioParams]) (by norm_num [Nonneg, initialPortfolio])

/-- C7: for a portfolio with non-negative holdings (the data model's
Portfolio invariant) the risk score is non-decreasing in shockMagnitude,
all other inputs held fixed. -/
theorem c7_riskScore_monotone (p : Portfolio) (params : Params) (m1 m2 : ℚ)
    (hp : Nonneg p) (h : m1 ≤ m2) :
    calculateRiskScore p { params with shockMagnitude := m1 } ≤
    calculateRiskScore p { params with shockMagnitude := m2 } := by
  obtain ⟨hu, ht, hb, hc⟩ := hp
  simp only [calculateRiskScore]
  split
  · exact le_refl 0
  · rename_i h0
    have htot : 0 < getTotalValue p := by
      rcases lt_or_eq_of_le (by unfold getTotalValue; linarith :
        (0:ℚ) ≤ getTotalValue p) with hlt | heq
      · exact hlt
      · exact absurd heq.symm h0
    have hcomp : 0 ≤ p.bonds / getTotalValue p * 80 + p.tBills / getTotalValue p * 10 +
        p.usdc / getTotalValue p * 5 + p.cash / getTotalValue p * 0 := by
      have h1 := div_nonneg hb htot.le
      have h2 := div_nonneg ht htot.le
      have h3 := div_nonneg hu htot.le
      have h4 := div_nonneg hc htot.le
      nlinarith
    have hfac : 1 + m1 / 100 ≤ 1 + m2 / 100 := by gcongr
    exact min_le_min (le_refl 100)
      (max_le_max (le_refl 0) (mul_le_mul_of_nonneg_left hfac hcomp))

/-- C7 at a concrete input: the initial portfolio with shock magnitudes
10 ≤ 30. -/
theorem c7_riskScore_monotone_witness :
    calculateRiskScore initialPortfolio { scenarioParams with shockMagnitude := 10 } ≤
    calculateRiskScore initialPortfolio { scenarioParams with shockMagnitude := 30 } :=
  c7_riskScore_monotone initialPortfolio scenarioParams 10 30
    (by norm_num [Nonneg, initialPortfolio]) (by norm_num)

/-- Frame facts about `stopSimulation`: everything but the playing flag
and the timer fields is untouched, and afterwards no timer is tracked. -/
theorem stopSimulation_frame (s : EngineState) :
    (stopSimulation s).currentStep = s.currentStep ∧
    (stopSimulation s).portfolio = s.portfolio ∧
    (stopSimulation s).history = s.history ∧
    (stopSimulation s).logs = s.logs ∧
    (stopSimulation s).params = s.params ∧
    (stopSimulation s).hasEverPlayed = s.hasEverPlayed ∧
    (stopSimulation s).isPlaying = false ∧
    (stopSimulation s).timerId = none ∧
    (stopSimulation s).nextTimer = s.nextTimer := by
  simp only [stopSimulation]
  rcases htid : s.timerId with _ | id <;> simp [htid]

/-- Stopping twice is the same as stopping once. -/
theorem stopSimulation_idem (s : EngineState) :
    stopSimulation (stopSimulation s) = stopSimulation s := by
  simp only [stopSimulation]
  rcases htid : s.timerId with _ | id <;> simp [htid]

/-- C5: after a reset (`resetSimulation`), regardless of the prior state, the step
index is 0, the portfolio is exactly the fixed initial allocation, the
history is the single entry for step 0 with the initial total value, and
the log holds exactly the reset line. -/
theorem c5_reset_state (s : EngineState) :
    (resetSimulation s).currentStep = 0 ∧
    (resetSimulation s).portfolio = initialPortfolio ∧
    (resetSimulation s).history = [some ⟨0, getTotalValue initialPortfolio⟩] ∧
    (resetSimulation s).logs = [LogMsg.resetLine] :=
  ⟨rfl, rfl, rfl, rfl⟩

/-- C8: advancing (`nextStep`) at the terminal step 3 only stops the scheduling loop:
step index, portfolio, history, log and parameters are unchanged, and a
second call gives the same state as the first. -/
theorem c8_terminal_noop (s : EngineState) (h : s.currentStep = 3) :
    nextStep s = stopSimulation s ∧
    (nextStep s).currentStep = s.currentStep ∧
    (nextStep s).portfolio = s.portfolio ∧
    (nextStep s).history = s.history ∧
    (nextStep s).logs = s.logs ∧
    (nextStep s).params = s.params ∧
    nextStep (nextStep s) = nextStep s := by
  have hlt : ¬ s.currentStep < 3 := by omega
  have h1 : nextStep s = stopSimulation s := by
    simp only [nextStep, if_neg hlt]
  obtain ⟨f1, f2, f3, f4, f5, -, -, -, -⟩ := stopSimulation_frame s
  have h2 : ¬ (stopSimulation s).currentStep < 3 := by
    rw [f1]
    exact hlt
  have h3 : nextStep (nextStep s) = nextStep s := by
    rw [h1]
    simp only [nextStep, if_neg h2]
    exact stopSimulation_idem s
  rw [h1]
  exact ⟨rfl, f1, f2, f3, f4, f5, by rw [← h1]; exact h3⟩

/-- TerminalState: the start state advanced to the terminal step, a
concrete state with step index 3. -/
def terminalState : EngineState :=
  { initState with currentStep := 3 }

/-- C8 at a concrete input: the terminal-step state. -/
theorem c8_terminal_noop_witness :
    nextStep terminalState = stopSimulation terminalState ∧
    (nextStep terminalState).currentStep = terminalState.currentStep ∧
    (nextStep terminalState).portfolio = terminalState.portfolio ∧
    (nextStep terminalState).history = terminalState.history ∧
    (nextStep terminalState).logs = terminalState.logs ∧
    (nextStep terminalState).params = terminalState.params ∧
    nextStep (nextStep terminalState) = nextStep terminalState :=
  c8_terminal_noop terminalState rfl

/-- Closed form of `resetSimulation`: which fields it overwrites and which
it passes through. -/
theorem resetSimulation_eq (s : EngineState) :
    resetSimulation s =
      { currentStep := 0, isPlaying := false,
        hasEverPlayed := s.hasEverPlayed, timerId := none,
        params := s.params, portfolio := initialPortfolio,
        history := [some ⟨0, getTotalValue initialPortfolio⟩],
        logs := [LogMsg.resetLine],
        liveTimers := (stopSimulation s).liveTimers,
        nextTimer := s.nextTimer } := by
  simp only [resetSimulation, logEvent, stopSimulation]
  rcases htid : s.timerId with _ | id <;> simp [htid]

/-- C9: calling `applyPreset` with an unrecognized name leaves the whole state
unchanged and logs nothing; with a recognized name it overwrites the three
parameters from the preset, performs the full reset, and then logs the
loaded preset (so the log is the reset line followed by the preset line). -/
theorem c9_applyPreset_spec (s : EngineState) (presetName : String) :
    (PRESETS presetName = none → applyPreset presetName s = s) ∧
    (∀ preset : Preset, PRESETS presetName = some preset →
      applyPreset presetName s =
        logEvent (LogMsg.presetLoaded preset.label)
          (resetSimulation { s with params :=
            { shockMagnitude := preset.shockMagnitude,
              targetReserveRatio := preset.targetReserveRatio,
              yieldDistribution := preset.yieldDistribution } }) ∧
      (applyPreset presetName s).params =
        { shockMagnitude := preset.shockMagnitude,
          targetReserveRatio := preset.targetReserveRatio,
          yieldDistribution := preset.yieldDistribution } ∧
      (applyPreset presetName s).currentStep = 0 ∧
      (applyPreset presetName s).portfolio = initialPortfolio ∧
      (applyPreset presetName s).history =
        [some ⟨0, getTotalValue initialPortfolio⟩] ∧
      (applyPreset presetName s).logs =
        [LogMsg.resetLine, LogMsg.presetLoaded preset.label]) := by
  constructor
  · intro h
    simp only [applyPreset, h]
  · intro preset h
    have e : applyPreset presetName s =
        logEvent (LogMsg.presetLoaded preset.label)
          (resetSimulation { s with params :=
            { shockMagnitude := preset.shockMagnitude,
              targetReserveRatio := preset.targetReserveRatio,
              yieldDistribution := preset.yieldDistribution } }) := by
      simp only [applyPreset, h]
    refine ⟨e, ?_, ?_, ?_, ?_, ?_⟩ <;>
      · rw [e, resetSimulation_eq]
        simp [logEvent]

/-- Engine states reachable through the control surface the UI exposes:
the Play button only fires while not playing (the source disables it via
`renderControls` whenever `isPlaying` is set), Pause, Reset and the preset
buttons are always available, sliders may change any parameter, and an
armed interval timer fires `nextStep`. -/
inductive ReachableUI : EngineState → Prop where
  | init : ReachableUI initState
  | play {s : EngineState} : ReachableUI s → s.isPlaying = false →
      ReachableUI (playSimulation s)
  | pause {s : EngineState} : ReachableUI s → ReachableUI (stopSimulation s)
  | reset {s : EngineState} : ReachableUI s → ReachableUI (resetSimulation s)
  | preset {s : EngineState} (presetName : String) : ReachableUI s →
      ReachableUI (applyPreset presetName s)
  | timerFire {s : EngineState} : ReachableUI s → ReachableUI (nextStep s)
  | shockInput {s : EngineState} (v : ℚ) : ReachableUI s →
      ReachableUI (setShockMagnitude v s)
  | reserveInput {s : EngineState} (v : ℚ) : ReachableUI s →
      ReachableUI (setTargetReserveRatio v s)
  | distInput {s : EngineState} (v : ℚ) : ReachableUI s →
      ReachableUI (setYieldDistribution v s)

/-- Timer bookkeeping invariant: while not playing no timer is tracked,
and the runtime's armed timers are exactly the tracked one. -/
def TimerInv (s : EngineState) : Prop :=
  (s.isPlaying = false → s.timerId = none) ∧ s.liveTimers = s.timerId.toList

/-- Stopping restores the timer invariant from any state already
satisfying it. -/
theorem timerInv_stop {s : EngineState} (h : TimerInv s) :
    TimerInv (stopSimulation s) := by
  obtain ⟨-, hlive⟩ := h
  simp only [TimerInv, stopSimulation]
  rcases htid : s.timerId with _ | id <;>
    simp_all [htid, Option.toList]

/-- Starting the play sequence on a state with no armed timer leaves
exactly the one fresh timer armed. -/
theorem timerInv_start {s : EngineState} (h : s.liveTimers = []) :
    TimerInv (startPlaySequence s) := by
  simp [TimerInv, startPlaySequence, h, Option.toList]

/-- A state satisfying the timer invariant and not playing has no armed
timer. -/
theorem timerInv_notPlaying_empty {s : EngineState} (h : TimerInv s)
    (hp : s.isPlaying = false) : s.liveTimers = [] := by
  obtain ⟨hnone, hlive⟩ := h
  rw [hlive, hnone hp]
  rfl

/-- Resetting restores the timer invariant. -/
theorem timerInv_reset {s : EngineState} (h : TimerInv s) :
    TimerInv (resetSimulation s) := by
  have hstop := timerInv_stop h
  rw [resetSimulation_eq]
  obtain ⟨-, hlive⟩ := hstop
  refine ⟨fun _ => rfl, ?_⟩
  rw [(stopSimulation_frame s).2.2.2.2.2.2.2.1] at hlive
  simpa [Option.toList] using hlive

/-- Advancing preserves the timer invariant. -/
theorem timerInv_next {s : EngineState} (h : TimerInv s) :
    TimerInv (nextStep s) := by
  simp only [nextStep]
  split
  · split
    · exact timerInv_stop (by
        obtain ⟨h1, h2⟩ := h
        simp only [TimerInv, executeStep]
        split
        · exact ⟨h1, h2⟩
        · split <;> exact ⟨h1, h2⟩)
    · obtain ⟨h1, h2⟩ := h
      simp only [TimerInv, executeStep]
      split
      · exact ⟨h1, h2⟩
      · split <;> exact ⟨h1, h2⟩
  · exact timerInv_stop h

/-- Every state reachable through the UI-guarded control surface satisfies
the timer invariant. -/
theorem reachableUI_timerInv {s : EngineState} (h : ReachableUI s) :
    TimerInv s := by
  induction h with
  | init =>
      refine ⟨fun _ => rfl, ?_⟩
      rfl
  | play hr hp ih =>
      rename_i t
      have hempty : t.liveTimers = [] := timerInv_notPlaying_empty ih hp
      simp only [playSimulation]
      split
      · refine timerInv_start ?_
        have := timerInv_reset ih
        exact timerInv_notPlaying_empty this (by
          rw [resetSimulation_eq])
      · exact timerInv_start hempty
  | pause hr ih => exact timerInv_stop ih
  | reset hr ih => exact timerInv_reset ih
  | preset presetName hr ih =>
      rename_i t
      simp only [applyPreset]
      rcases hpre : PRESETS presetName with _ | preset
      · exact ih
      · have hstep := timerInv_reset (s :=
          { t with params :=
            { shockMagnitude := preset.shockMagnitude,
              targetReserveRatio := preset.targetReserveRatio,
              yieldDistribution := preset.yieldDistribution } }) ih
        obtain ⟨ha, hb⟩ := hstep
        exact ⟨fun hpl => ha hpl, hb⟩
  | timerFire hr ih => exact timerInv_next ih
  | shockInput v hr ih => exact ih
  | reserveInput v hr ih => exact ih
  | distInput v hr ih => exact ih

/-- C4 (amended): in every engine state reachable through the UI-guarded
control surface — play is only invoked while not playing, as the disabled
Play button enforces — at most one interval timer is armed. -/
theorem c4_at_most_one_timer (s : EngineState) (h : ReachableUI s) :
    s.liveTimers.length ≤ 1 := by
  obtain ⟨-, hlive⟩ := reachableUI_timerInv h
  rw [hlive]
  cases s.timerId <;> simp [Option.toList]

/-- C4 at a concrete input: the state reached by pressing Play once from
the start state. -/
theorem c4_at_most_one_timer_witness :
    (playSimulation initState).liveTimers.length ≤ 1 :=
  c4_at_most_one_timer (playSimulation initState)
    (ReachableUI.play ReachableUI.init rfl)

/-- C4 counterexample to the claim as stated: `startPlaySequence` does not
cancel an armed timer — invoking play a second time while timer 1 is still
armed leaves both timers 1 and 2 armed simultaneously. -/
theorem c4_counterexample :
    (playSimulation initState).timerId = some 1 ∧
    (playSimulation initState).liveTimers = [1] ∧
    (playSimulation (playSimulation initState)).liveTimers = [2, 1] ∧
    (playSimulation (playSimulation initState)).liveTimers.length = 2 := by
  refine ⟨rfl, rfl, rfl, rfl⟩
